import Mathlib

/-!
Verification of the AI query interpretation and search pipeline of the
podcast-2-0-ai-player repository (mcp-server test harness).

The definitions below are shallow embeddings of the Python functions in
`src/mcp-server/tests/ai_query/query_interpreter.py`,
`src/mcp-server/tests/ai_query/claude_client.py`,
`src/mcp-server/tests/ai_query/podcastindex_client.py` and
`src/mcp-server/run_ai_query_test.py`.  Strings are modelled as Lean
`String`s (lists of Unicode code points, matching Python `str` at the
code-point level); machine-level concerns (floats, network I/O) are
represented by explicit outcome types.
-/

namespace Podcast

/-- Python `str.strip()` whitespace at the ASCII level (space, tab, newline,
carriage return, vertical tab, form feed).  Python also strips some non-ASCII
Unicode space characters; every input appearing in the claims is ASCII. -/
def isPyWS (c : Char) : Bool :=
  c = ' ' || c = '\t' || c = '\n' || c = '\r' || c = '\x0b' || c = '\x0c'

/-- Python `str.strip()` on a list of characters. -/
def pyStripL (l : List Char) : List Char :=
  ((l.dropWhile isPyWS).reverse.dropWhile isPyWS).reverse

/-- Python `str.strip()`. -/
def pyStrip (s : String) : String := ⟨pyStripL s.data⟩

/-- Python `str.lower()`.  `Char.toLower` lower-cases ASCII letters; the three
taxonomy tokens compared against are pure ASCII. -/
def pyLower (s : String) : String := ⟨s.data.map Char.toLower⟩

/-- `MAX_QUERY_LENGTH = 500` from query_interpreter.py. -/
def MAX_QUERY_LENGTH : Nat := 500

/-- The character class of the regex `[<>;&|]` in `sanitize_query`. -/
def isDangerChar (c : Char) : Bool :=
  c = '<' || c = '>' || c = ';' || c = '&' || c = '|'

/-- `re.sub(r'[<>;&|]', '', s)`: delete every dangerous character. -/
def removeDanger (l : List Char) : List Char :=
  l.filter (fun c => !(isDangerChar c))

/-- `sanitize_query` from query_interpreter.py lines 78-103: trim, reject if
empty or longer than 500 characters, delete the characters `<>;&|`, strip
again, reject if empty. -/
def sanitize_query (q : String) : Option String :=
  if pyStripL q.data = [] || (pyStripL q.data).length > MAX_QUERY_LENGTH then none
  else if pyStripL (removeDanger (pyStripL q.data)) = [] then none
  else some ⟨pyStripL (removeDanger (pyStripL q.data))⟩

/-- `validate_search_type` from query_interpreter.py lines 164-174. -/
def validate_search_type (st : String) : Bool :=
  st == "byperson" || st == "bytitle" || st == "byterm"

/-- `normalize_search_type` from query_interpreter.py lines 177-188:
`search_type.lower().strip()`, kept if valid, else `"byterm"`. -/
def normalize_search_type (st : String) : String :=
  let normalized := pyStrip (pyLower st)
  if validate_search_type normalized then normalized else "byterm"

/-- `QueryInterpretation` dataclass from query_interpreter.py.  The third
field is the dataclass's `explanation` attribute. -/
structure QueryInterpretation where
  search_type : String
  query : String
  explain : String
deriving DecidableEq, Repr

/-! JSON values and a fuel-indexed JSON parser, embedding the behaviour of
Python `json.loads` on the inputs this pipeline feeds it.  JSON floats are
outside the modelled input space (no reply fixture contains a number at all):
a numeric literal continuing with `.`, `e` or `E` makes the parse fail here,
where Python would produce a float. -/

inductive JsonVal where
  | null
  | bool (b : Bool)
  | int (n : Int)
  | str (s : String)
  | arr (elems : List JsonVal)
  | obj (members : List (String × JsonVal))

/-- JSON insignificant whitespace. -/
def isJsonWS (c : Char) : Bool :=
  c = ' ' || c = '\t' || c = '\n' || c = '\r'

def skipWS (l : List Char) : List Char := l.dropWhile isJsonWS

def hexVal (c : Char) : Option Nat :=
  let n := c.toNat
  if 48 ≤ n && n ≤ 57 then some (n - 48)
  else if 97 ≤ n && n ≤ 102 then some (n - 87)
  else if 65 ≤ n && n ≤ 70 then some (n - 55)
  else none

/-- Decode one escape sequence after a backslash inside a JSON string.
Surrogate halves of a `\uXXXX` escape are not recombined into one code point
(no modelled input contains them). -/
def unescape : List Char → Option (Char × List Char)
  | [] => none
  | e :: rest =>
    if e = '"' || e = '\\' || e = '/' then some (e, rest)
    else if e = 'b' then some ('\x08', rest)
    else if e = 'f' then some ('\x0c', rest)
    else if e = 'n' then some ('\n', rest)
    else if e = 'r' then some ('\r', rest)
    else if e = 't' then some ('\t', rest)
    else if e = 'u' then
      match rest with
      | h1 :: h2 :: h3 :: h4 :: r =>
        match hexVal h1, hexVal h2, hexVal h3, hexVal h4 with
        | some a, some b, some c, some d =>
          some (Char.ofNat (((a * 16 + b) * 16 + c) * 16 + d), r)
        | _, _, _, _ => none
      | _ => none
    else none

/-- Parse the body of a JSON string after the opening quote; returns the
decoded characters and the remainder after the closing quote. -/
def parseJStr : Nat → List Char → Option (List Char × List Char)
  | 0, _ => none
  | _ + 1, [] => none
  | fuel + 1, c :: rest =>
    if c = '"' then some ([], rest)
    else if c = '\\' then
      match unescape rest with
      | some (ch, rest2) =>
        match parseJStr fuel rest2 with
        | some (cs, r) => some (ch :: cs, r)
        | none => none
      | none => none
    else if c.toNat < 32 then none
    else
      match parseJStr fuel rest with
      | some (cs, r) => some (c :: cs, r)
      | none => none

def digitsToNat (ds : List Char) : Nat :=
  ds.foldl (fun acc c => acc * 10 + (c.toNat - 48)) 0

/-- Parse a JSON integer literal (leading zeros rejected as in JSON; a float
continuation fails, see module note above). -/
def parseNum (l : List Char) : Option (JsonVal × List Char) :=
  let (neg, l1) := match l with
    | '-' :: r => (true, r)
    | _ => (false, l)
  let ds := l1.takeWhile (fun c => c.isDigit)
  let rest := l1.dropWhile (fun c => c.isDigit)
  if ds = [] then none
  else if ds.length > 1 && ds.headD '0' = '0' then none
  else
    match rest with
    | c :: _ =>
      if c = '.' || c = 'e' || c = 'E' then none
      else some (.int (if neg then -(digitsToNat ds : Int) else (digitsToNat ds : Int)), rest)
    | [] => some (.int (if neg then -(digitsToNat ds : Int) else (digitsToNat ds : Int)), [])

def lbraceChar : Char := '\x7b'
def rbraceChar : Char := '\x7d'

/-- The triple of mutually recursive parsers (value, array elements, object
members), built by recursion on fuel so that every definition reduces in the
kernel.  Each level may only call the functions of the previous level. -/
def JParsers : Type :=
  (List Char → Option (JsonVal × List Char)) ×
  (List Char → Option (List JsonVal × List Char)) ×
  (List Char → Option (List (String × JsonVal) × List Char))

def jsonParsers : Nat → JParsers
  | 0 => ⟨fun _ => none, fun _ => none, fun _ => none⟩
  | fuel + 1 =>
    let ps := jsonParsers fuel
    let pv := ps.1
    let pe := ps.2.1
    let pm := ps.2.2
    ⟨fun l =>
      match skipWS l with
      | [] => none
      | c :: rest =>
        if c = '"' then
          match parseJStr (rest.length + 1) rest with
          | some (cs, r) => some (.str ⟨cs⟩, r)
          | none => none
        else if c = lbraceChar then
          match skipWS rest with
          | c2 :: r2 =>
            if c2 = rbraceChar then some (.obj [], r2)
            else
              match pm (c2 :: r2) with
              | some (ms, r) => some (.obj ms, r)
              | none => none
          | [] => none
        else if c = '[' then
          match skipWS rest with
          | ']' :: r2 => some (.arr [], r2)
          | r1 =>
            match pe r1 with
            | some (vs, r) => some (.arr vs, r)
            | none => none
        else if c = 't' then
          if ['r', 'u', 'e'].isPrefixOf rest then some (.bool true, rest.drop 3) else none
        else if c = 'f' then
          if ['a', 'l', 's', 'e'].isPrefixOf rest then some (.bool false, rest.drop 4) else none
        else if c = 'n' then
          if ['u', 'l', 'l'].isPrefixOf rest then some (.null, rest.drop 3) else none
        else if c = '-' || c.isDigit then parseNum (c :: rest)
        else none,
    fun l =>
      match pv l with
      | some (v, r1) =>
        match skipWS r1 with
        | ',' :: r2 =>
          match pe r2 with
          | some (vs, r3) => some (v :: vs, r3)
          | none => none
        | ']' :: r2 => some ([v], r2)
        | _ => none
      | none => none,
    fun l =>
      match skipWS l with
      | '"' :: rest =>
        match parseJStr (rest.length + 1) rest with
        | some (key, r1) =>
          match skipWS r1 with
          | ':' :: r2 =>
            match pv r2 with
            | some (v, r3) =>
              match skipWS r3 with
              | ',' :: r4 =>
                match pm r4 with
                | some (ms, r5) => some ((⟨key⟩, v) :: ms, r5)
                | none => none
              | c5 :: r4 =>
                if c5 = rbraceChar then some ([(⟨key⟩, v)], r4) else none
              | [] => none
            | none => none
          | _ => none
        | none => none
      | _ => none⟩

/-- `json.loads` on a list of characters: parse one value, then require only
trailing whitespace (Python raises `Extra data` otherwise). -/
def jsonParseL (l : List Char) : Option JsonVal :=
  match (jsonParsers (2 * l.length + 4)).1 l with
  | some (v, rest) => if skipWS rest = [] then some v else none
  | none => none

/-- `json.loads` on a string. -/
def jsonParse (s : String) : Option JsonVal := jsonParseL s.data

/-! Model of `parse_claude_response` (query_interpreter.py lines 106-161) and
of `ClaudeQueryClient.interpret_query` (claude_client.py lines 129-223).
The outer `json.loads(response_body)` of the code receives
`json.dumps(response_body)` of the decoded reply, so the reply is modelled
directly at the structured level. -/

/-- One entry of the reply's `content` array.  `text` is the value of the
`"text"` key (`content[0].get("text", "")`); a non-string value there would
make the Python code raise an uncaught `AttributeError` at `.strip()` and is
outside the modelled input space. -/
structure ContentBlock where
  text : Option String
deriving DecidableEq, Repr

/-- The decoded Claude reply body: its `content` array and, for the non-200
display path, the value of `body.get("error", {}).get("message")`. -/
structure ClaudeResponse where
  content : List ContentBlock
  errMsg : Option String
deriving DecidableEq, Repr

/-- Python `str.removeprefix`. -/
def removePre (pre : List Char) (l : List Char) : List Char :=
  if pre.isPrefixOf l then l.drop pre.length else l

/-- Python `str.removesuffix`. -/
def removeSuf (suf : List Char) (l : List Char) : List Char :=
  if suf.isSuffixOf l then l.take (l.length - suf.length) else l

/-- Lines 134-136 of query_interpreter.py: strip a leading markdown fence
opener (with or without the `json` tag), strip a trailing fence, re-trim. -/
def fenceStrip (l : List Char) : List Char :=
  pyStripL (removeSuf "```".data (removePre "```".data (removePre "```json".data l)))

def lastIdxOf (l : List Char) (c : Char) : Option Nat :=
  match l.reverse.findIdx? (fun x => x == c) with
  | some k => some (l.length - 1 - k)
  | none => none

/-- Lines 139-143: find the first `{` and the last `}`; if both exist and
the first precedes the last, slice to exactly that span, else leave the text
unchanged. -/
def recoverSpan (l : List Char) : List Char :=
  match l.findIdx? (fun x => x == lbraceChar), lastIdxOf l rbraceChar with
  | some i, some j => if i < j then (l.drop i).take (j + 1 - i) else l
  | some _, none => l
  | none, _ => l

/-- Python dict semantics for the object produced by `json.loads`: on
duplicate keys the last occurrence wins. -/
def jsonLookup (ms : List (String × JsonVal)) (k : String) : Option JsonVal :=
  ((ms.filter (fun m => m.1 == k)).getLast?).map (fun m => m.2)

/-- `parsed.get(key, default)` restricted to string values.  The Python code
would pass a non-string value through into the dataclass unchecked; only
string-valued fields are in the modelled input space. -/
def getStrField (ms : List (String × JsonVal)) (k : String) (dflt : String) :
    Option String :=
  match jsonLookup ms k with
  | none => some dflt
  | some (.str s) => some s
  | some _ => none

/-- Lines 145-158: read `search_type` (default `"byterm"`), `query` (default
`""`), `explanation` (default `""`); succeed only when `query` is non-empty.
A parsed value that is not an object would make the Python code raise an
uncaught `AttributeError` at `.get` and is outside the modelled input space. -/
def extractInterp (v : JsonVal) : Option QueryInterpretation :=
  match v with
  | .obj ms =>
    match getStrField ms "search_type" "byterm",
          getStrField ms "query" "",
          getStrField ms "explanation" "" with
    | some st, some q, some ex => if q = "" then none else some ⟨st, q, ex⟩
    | _, _, _ => none
  | _ => none

/-- Lines 133-158 applied to the (already stripped, non-empty) text of the
first content block: strip fences, slice to the brace span, `json.loads`,
extract the fields. -/
def parseClaudeText (text : List Char) : Option QueryInterpretation :=
  match jsonParseL (recoverSpan (fenceStrip text)) with
  | some v => extractInterp v
  | none => none

/-- `parse_claude_response` on the structured reply body: fail on an empty
`content` array or on empty text, else recover from the first block's text. -/
def parse_claude_response (body : ClaudeResponse) : Option QueryInterpretation :=
  match body.content with
  | [] => none
  | blk :: _ =>
    if pyStripL (blk.text.getD "").data = [] then none
    else parseClaudeText (pyStripL (blk.text.getD "").data)

/-- Outcome of the `httpx` POST inside `interpret_query`: a decoded reply
with its status code, a timeout, a transport error, or a reply whose body is
not valid JSON (`response.json()` raised after the status was recorded). -/
inductive TransportOutcome where
  | ok (status : Nat) (body : ClaudeResponse)
  | timeout
  | requestError (msg : String)
  | jsonError (status : Nat)
deriving DecidableEq, Repr

/-- The caller-relevant fields of `QueryResult` (claude_client.py lines
69-80). -/
structure QueryResult where
  interpretation : Option QueryInterpretation
  error : Option String
deriving DecidableEq, Repr

/-- `QueryResult.success`. -/
def querySuccess (r : QueryResult) : Bool :=
  r.interpretation.isSome && r.error.isNone

/-- `ClaudeQueryClient.interpret_query` (claude_client.py lines 129-223),
with the network call abstracted as a `TransportOutcome`: exceptions set the
error strings of lines 180-185; a 200 reply is parsed, a parse failure sets
`"Failed to parse Claude response"`; a non-200 status reports the upstream
message. -/
def interpret_query (o : TransportOutcome) : QueryResult :=
  match o with
  | .timeout => ⟨none, some "Request timed out"⟩
  | .requestError m => ⟨none, some ("Request failed: " ++ m)⟩
  | .jsonError _ => ⟨none, some "Failed to parse response JSON"⟩
  | .ok status body =>
    if status = 200 then
      match parse_claude_response body with
      | some i => ⟨some i, none⟩
      | none => ⟨none, some "Failed to parse Claude response"⟩
    else
      ⟨none, some ("API error: " ++ toString status ++ " - " ++ body.errMsg.getD "Unknown")⟩

/-! SHA-1 (FIPS 180-1), the hash behind `hashlib.sha1` used by
`PodcastIndexClient._generate_auth_hash`.  Bytes and 32-bit words are
Nats reduced mod 2^32 / 2^8 where overflow matters. -/

def rotl32 (x n : Nat) : Nat := ((x <<< n) ||| (x >>> (32 - n))) % 4294967296

/-- Standard UTF-8 encoding of one code point, as `str.encode("utf-8")`. -/
def utf8EncodeChar (c : Char) : List Nat :=
  let n := c.toNat
  if n < 128 then [n]
  else if n < 2048 then [192 ||| (n >>> 6), 128 ||| (n &&& 63)]
  else if n < 65536 then
    [224 ||| (n >>> 12), 128 ||| ((n >>> 6) &&& 63), 128 ||| (n &&& 63)]
  else
    [240 ||| (n >>> 18), 128 ||| ((n >>> 12) &&& 63),
     128 ||| ((n >>> 6) &&& 63), 128 ||| (n &&& 63)]

def utf8Bytes (s : String) : List Nat :=
  s.data.foldr (fun c acc => utf8EncodeChar c ++ acc) []

def bytesBE8 (n : Nat) : List Nat :=
  [(n >>> 56) % 256, (n >>> 48) % 256, (n >>> 40) % 256, (n >>> 32) % 256,
   (n >>> 24) % 256, (n >>> 16) % 256, (n >>> 8) % 256, n % 256]

/-- Merkle-Damgard padding: append `0x80`, zero bytes to 56 mod 64, then the
bit length as an 8-byte big-endian integer. -/
def sha1Pad (msg : List Nat) : List Nat :=
  msg ++ [128] ++ List.replicate ((119 - msg.length % 64) % 64) 0
      ++ bytesBE8 (8 * msg.length)

/-- Group bytes into big-endian 32-bit words. -/
def toWords : List Nat → List Nat
  | a :: b :: c :: d :: rest => (((a * 256 + b) * 256 + c) * 256 + d) :: toWords rest
  | _ => []

/-- Message-schedule extension, accumulator kept in reverse order so that
w[i-3], w[i-8], w[i-14], w[i-16] are positions 2, 7, 13, 15. -/
def sha1ExtendRev : Nat → List Nat → List Nat
  | 0, acc => acc
  | k + 1, acc =>
    let w := rotl32 ((acc.getD 2 0) ^^^ (acc.getD 7 0) ^^^ (acc.getD 13 0) ^^^ (acc.getD 15 0)) 1
    sha1ExtendRev k (w :: acc)

def Sha1State : Type := Nat × Nat × Nat × Nat × Nat

def sha1Compress (h : Sha1State) (chunk : List Nat) : Sha1State :=
  let w80 := (sha1ExtendRev 64 (toWords chunk).reverse).reverse
  let r := w80.enum.foldl
    (fun (st : Sha1State) (iw : Nat × Nat) =>
      let (a, b, c, d, e) := st
      let i := iw.1
      let f :=
        if i < 20 then (b &&& c) ||| ((b ^^^ 4294967295) &&& d)
        else if i < 40 then b ^^^ c ^^^ d
        else if i < 60 then (b &&& c) ||| (b &&& d) ||| (c &&& d)
        else b ^^^ c ^^^ d
      let k :=
        if i < 20 then 1518500249
        else if i < 40 then 1859775393
        else if i < 60 then 2400959708
        else 3395469782
      let temp := (rotl32 a 5 + f + e + k + iw.2) % 4294967296
      (temp, a, rotl32 b 30, c, d))
    h
  let (a, b, c, d, e) := r
  let (h0, h1, h2, h3, h4) := h
  ((h0 + a) % 4294967296, (h1 + b) % 4294967296, (h2 + c) % 4294967296,
   (h3 + d) % 4294967296, (h4 + e) % 4294967296)

/-- Split into 64-byte chunks (fuel-indexed, the fuel is an upper bound on the
number of chunks). -/
def chunk64 : Nat → List Nat → List (List Nat)
  | 0, _ => []
  | _ + 1, [] => []
  | fuel + 1, l => l.take 64 :: chunk64 fuel (l.drop 64)

def hexDigit (n : Nat) : Char :=
  if n < 10 then Char.ofNat (48 + n) else Char.ofNat (87 + n)

def byteHexChars (b : Nat) : List Char := [hexDigit (b / 16), hexDigit (b % 16)]

def wordHex8 (w : Nat) : List Char :=
  byteHexChars ((w >>> 24) % 256) ++ byteHexChars ((w >>> 16) % 256) ++
  byteHexChars ((w >>> 8) % 256) ++ byteHexChars (w % 256)

/-- `hashlib.sha1(msg).hexdigest()`. -/
def sha1Hex (msg : List Nat) : String :=
  let padded := sha1Pad msg
  let (h0, h1, h2, h3, h4) :=
    (chunk64 (padded.length + 1) padded).foldl sha1Compress
      (1732584193, 4023233417, 2562383102, 271733878, 3285377520)
  ⟨wordHex8 h0 ++ wordHex8 h1 ++ wordHex8 h2 ++ wordHex8 h3 ++ wordHex8 h4⟩

/-! Model of `PodcastIndexClient` (podcastindex_client.py) and of the
pipeline runner `run_single_query` (run_ai_query_test.py). -/

def BASE_URL : String := "https://api.podcastindex.org/api/1.0"
def USER_AGENT : String := "PodcastApp/1.0"
def DEFAULT_MAX_RESULTS : Nat := 20

/-- `_generate_auth_hash` (lines 220-228):
`sha1(api_key + api_secret + timestamp)` hex-encoded, over UTF-8 bytes. -/
def generate_auth_hash (api_key api_secret timestamp : String) : String :=
  sha1Hex (utf8Bytes (api_key ++ api_secret ++ timestamp))

structure PIHeaders where
  xAuthKey : String
  xAuthDate : String
  authorization : String
  userAgent : String
deriving DecidableEq, Repr

/-- `_build_headers` (lines 230-240): a fresh timestamp `int(time.time())` is
taken at call time and both sent as `X-Auth-Date` and hashed into
`Authorization`; `now` is that current Unix time in seconds. -/
def build_headers (api_key api_secret : String) (now : Nat) : PIHeaders :=
  let timestamp := toString now
  { xAuthKey := api_key
    xAuthDate := timestamp
    authorization := generate_auth_hash api_key api_secret timestamp
    userAgent := USER_AGENT }

/-- One entry of the reply's `feeds` array, with the keys
`PodcastResult.from_api` reads.  The numeric fields are modelled at `Nat`
(the API's id and episode counts); absent keys are `none`. -/
structure FeedItem where
  id : Option Nat := none
  title : Option String := none
  author : Option String := none
  description : Option String := none
  episodeCount : Option Nat := none
  artwork : Option String := none
  image : Option String := none
  url : Option String := none
  language : Option String := none
deriving DecidableEq, Repr

/-- Python `a or b` on optional strings: the first operand wins unless it is
falsy (`None` or the empty string). -/
def pyOrStr : Option String → Option String → Option String
  | some s, b => if s = "" then b else some s
  | none, b => b

/-- Python `s[:200]`. -/
def truncate200 (s : String) : String := ⟨s.data.take 200⟩

/-- `PodcastResult` (podcastindex_client.py lines 33-56). -/
structure PodcastResult where
  id : Nat
  title : String
  author : String
  description : String
  episode_count : Nat
  image_url : Option String
  feed_url : String
  language : Option String
deriving DecidableEq, Repr

/-- `PodcastResult.from_api`: per-field defaults for missing keys, the
description truncated to 200 characters (and `""` when falsy). -/
def PodcastResult.from_api (d : FeedItem) : PodcastResult :=
  { id := d.id.getD 0
    title := d.title.getD "Unknown"
    author := d.author.getD "Unknown"
    description :=
      match d.description with
      | some s => if s = "" then "" else truncate200 s
      | none => ""
    episode_count := d.episodeCount.getD 0
    image_url := pyOrStr d.artwork d.image
    feed_url := d.url.getD ""
    language := d.language }

/-- The decoded search reply body: the `feeds` array, the optional `count`
field, and the `description` used in the non-200 error message. -/
structure SearchBody where
  feeds : List FeedItem := []
  count : Option Nat := none
  description : Option String := none
deriving DecidableEq, Repr

/-- Outcome of the `httpx` GET inside `search`, mirroring the except-clauses
of lines 299-317. -/
inductive SearchTransport where
  | ok (status : Nat) (body : SearchBody)
  | timeout
  | requestError (msg : String)
  | jsonError (status : Nat)
deriving DecidableEq, Repr

/-- The outbound request `search` issues: endpoint URL, query parameters in
insertion order, authenticated headers. -/
structure SentRequest where
  url : String
  params : List (String × String)
  headers : PIHeaders
deriving DecidableEq, Repr

/-- `endpoint_map.get(search_type, "search/byterm")` (lines 263-268). -/
def endpointFor (search_type : String) : String :=
  if search_type = "byperson" then "search/byperson"
  else if search_type = "bytitle" then "search/bytitle"
  else if search_type = "byterm" then "search/byterm"
  else "search/byterm"

/-- Lines 262-277: endpoint, headers and parameters of the outbound search
request; `clean=true` is appended exactly when `search_type == "byterm"`. -/
def searchRequest (api_key api_secret : String) (now : Nat)
    (search_type query : String) (max_results : Nat) : SentRequest :=
  { url := BASE_URL ++ "/" ++ endpointFor search_type
    params := [("q", query), ("max", toString max_results)] ++
      (if search_type = "byterm" then [("clean", "true")] else [])
    headers := build_headers api_key api_secret now }

/-- The caller-relevant fields of `SearchResult` (lines 101-114). -/
structure SearchResult where
  search_type : String
  query : String
  podcasts : List PodcastResult
  total_count : Nat
  request : SentRequest
  error : Option String
deriving DecidableEq, Repr

/-- `PodcastIndexClient.search` (lines 242-347) with the network call
abstracted as a `SearchTransport`: on a 200 reply the total count is the
payload's `count` field, defaulting to `len(feeds)`; a non-200 status
surfaces the upstream description; exceptions set the error strings of
lines 312-317. -/
def search (api_key api_secret : String) (now : Nat) (search_type query : String)
    (max_results : Nat) (t : SearchTransport) : SearchResult :=
  let req := searchRequest api_key api_secret now search_type query max_results
  match t with
  | .ok status body =>
    if status = 200 then
      { search_type, query
        podcasts := body.feeds.map PodcastResult.from_api
        total_count := body.count.getD body.feeds.length
        request := req, error := none }
    else
      { search_type, query, podcasts := [], total_count := 0, request := req
        error := some ("API error: " ++ toString status ++ " - " ++
          body.description.getD "Unknown error") }
  | .timeout =>
    { search_type, query, podcasts := [], total_count := 0, request := req
      error := some "Request timed out" }
  | .requestError m =>
    { search_type, query, podcasts := [], total_count := 0, request := req
      error := some ("Request failed: " ++ m) }
  | .jsonError _ =>
    { search_type, query, podcasts := [], total_count := 0, request := req
      error := some "Failed to parse response JSON" }

/-- Return value of `run_single_query`: Python `None` on interpretation
failure, else the `(claude_result, search_result)` tuple. -/
inductive RunOutput where
  | noResult
  | pair (claude : QueryResult) (searchRes : Option SearchResult)
deriving DecidableEq, Repr

/-- `run_single_query` (run_ai_query_test.py lines 40-84) with its external
interactions abstracted: the Claude call as a `TransportOutcome`, the
`PodcastIndexClient.from_gradle_properties` construction as an
`Except` (its `ValueError` and `FileNotFoundError` are caught and yield
`(claude_result, None)`), and the search call as a function of the
interpretation's search type and query. -/
def run_single_query (claudeOutcome : TransportOutcome) (with_search : Bool)
    (piInit : Except String Unit) (searchFn : String → String → SearchResult) :
    RunOutput :=
  let claude_result := interpret_query claudeOutcome
  if !querySuccess claude_result then .noResult
  else if with_search && claude_result.interpretation.isSome then
    match piInit with
    | .error _ => .pair claude_result none
    | .ok _ =>
      match claude_result.interpretation with
      | some interp => .pair claude_result (some (searchFn interp.search_type interp.query))
      | none => .pair claude_result none
  else .pair claude_result none

/-- A stage invocation of the pipeline orchestrator: the interpreter called
on a (sanitized) query, or the search executor called on a normalized
category and query. -/
inductive PipelineCall where
  | interpretCall (q : String)
  | searchCall (category q : String)
deriving DecidableEq, Repr

/-- `PipelineResult` of spec section 3: the interpretation when the
interpreter succeeded, the search result when a search ran, the error of the
stage that failed. -/
structure PipelineResult where
  interpretation : Option QueryInterpretation
  searchRes : Option SearchResult
  error : Option String
deriving DecidableEq, Repr

/-- Modelled from the spec: the Pipeline Orchestrator state machine of
section 4.5 (`Start -> Sanitizing -> Interpreting -> Normalizing ->
(Searching) -> Done | Failed`).  The orchestrator that wires the Sanitizer in
front of the Model Interpreter is the Android `AISearchService`, which is not
among the source files here (the Python modules replicate its stages
individually, and `run_single_query` drives only the two live network
stages), so the sequencing is taken from the spec's words: sanitize first,
rejection fails the run with reason "invalid input" and makes no downstream
call; on success the interpreter runs on the sanitized query, its error is
propagated verbatim; a success is normalized and, when requested, searched.
The interpreter and search executor are abstracted as oracles, and the calls
the run makes are recorded in order. -/
def pipelineRun (interp : String → Except String QueryInterpretation)
    (withSearch : Bool) (searchExec : String → String → SearchResult)
    (raw : String) : PipelineResult × List PipelineCall :=
  match sanitize_query raw with
  | none => (⟨none, none, some "invalid input"⟩, [])
  | some q =>
    match interp q with
    | .error e => (⟨none, none, some e⟩, [.interpretCall q])
    | .ok i =>
      let category := normalize_search_type i.search_type
      if withSearch then
        let sr := searchExec category i.query
        (⟨some i, some sr, sr.error⟩, [.interpretCall q, .searchCall category i.query])
      else
        (⟨some i, none, none⟩, [.interpretCall q])

/-- Fixture text of `MOCK_RESPONSES["success_with_markdown"]` (fixtures.py
lines 188-201). -/
def successWithMarkdownText : String :=
  "```json\n\x7b\"search_type\": \"byperson\", \"query\": \"Test Person\", \"explanation\": \"Test\"\x7d\n```"

/-- Fixture text of `MOCK_RESPONSES["malformed_json"]` (fixtures.py lines
202-215). -/
def malformedJsonText : String :=
  "\x7b\"search_type\": \"byterm\", \"query\": incomplete"

/-- Fixture text of `MOCK_RESPONSES["empty_query"]` (fixtures.py lines
216-229). -/
def emptyQueryText : String :=
  "\x7b\"search_type\": \"byterm\", \"query\": \"\", \"explanation\": \"Empty\"\x7d"

/-- Fixture text of `MOCK_RESPONSES["success_byperson"]` (fixtures.py lines
146-159). -/
def byPersonFixtureText : String :=
  "\x7b\"search_type\": \"byperson\", \"query\": \"David Deutsch\", \"explanation\": \"Searching for podcast episodes featuring David Deutsch as a guest\"\x7d"

/-! A second, crash-faithful model of the response parsing of
query_interpreter.py lines 145-161.  The `parse_claude_response` /
`interpret_query` model above types the three reply fields at `String` and
returns `none` where Python would instead raise an uncaught `AttributeError`
(a parsed value that is not an object) or succeed with ill-typed fields (a
field value that is not a string); the model below keeps the decoded values
raw and makes the crash explicit. -/

/-- Python truthiness of a decoded JSON value (`if query:` on the result of
`json.loads`; floats are outside the modelled input space). -/
def jsonTruthy : JsonVal → Bool
  | .null => false
  | .bool b => b
  | .int n => decide (n ≠ 0)
  | .str s => decide (s ≠ "")
  | .arr xs => !xs.isEmpty
  | .obj ms => !ms.isEmpty

/-- Outcome of `parse_claude_response` with the uncaught-exception path made
explicit: Python returns a `QueryInterpretation` whose three fields are the
raw decoded values (not necessarily strings — the dataclass does not check
types), returns `None`, or raises an uncaught `AttributeError` when the
parsed value is not a dict (`parsed.get` at query_interpreter.py line 147;
`AttributeError` is not in the except tuple of line 160). -/
inductive PyParseOutcome where
  | ok (search_type query explain : JsonVal)
  | fail
  | crash

/-- `parse_claude_response` (query_interpreter.py lines 106-161) on the
structured reply body, with raw field values and the crash path explicit:
`json.JSONDecodeError` is caught (`.fail`), a parsed non-object raises an
uncaught `AttributeError` (`.crash`), fields default to `"byterm"` / `""` /
`""`, and Python truthiness of `query` decides success. -/
def parse_claude_response_py (body : ClaudeResponse) : PyParseOutcome :=
  match body.content with
  | [] => .fail
  | blk :: _ =>
    if pyStripL (blk.text.getD "").data = [] then .fail
    else
      match jsonParseL (recoverSpan (fenceStrip (pyStripL (blk.text.getD "").data))) with
      | none => .fail
      | some (.obj ms) =>
        if jsonTruthy ((jsonLookup ms "query").getD (.str "")) then
          .ok ((jsonLookup ms "search_type").getD (.str "byterm"))
            ((jsonLookup ms "query").getD (.str ""))
            ((jsonLookup ms "explanation").getD (.str ""))
        else .fail
      | some _ => .crash

/-- Outcome of `interpret_query` with the crash path explicit: a returned
`QueryResult` (interpretation as the raw field triple, error string), or an
uncaught exception propagating to the caller. -/
inductive PyQueryOutcome where
  | result (interpretation : Option (JsonVal × JsonVal × JsonVal)) (error : Option String)
  | crash

/-- `ClaudeQueryClient.interpret_query` (claude_client.py lines 129-223) over
the crash-faithful parse model.  The parse of a 200 reply happens at line 204,
outside the try of lines 175-185, so the uncaught `AttributeError` propagates
out of `interpret_query` (and out of `run_single_query`, which has no handler
for it either). -/
def interpret_query_py (o : TransportOutcome) : PyQueryOutcome :=
  match o with
  | .timeout => .result none (some "Request timed out")
  | .requestError m => .result none (some ("Request failed: " ++ m))
  | .jsonError _ => .result none (some "Failed to parse response JSON")
  | .ok status body =>
    if status = 200 then
      match parse_claude_response_py body with
      | .ok st q ex => .result (some (st, q, ex)) none
      | .fail => .result none (some "Failed to parse Claude response")
      | .crash => .crash
    else
      .result none (some ("API error: " ++ toString status ++ " - " ++
        body.errMsg.getD "Unknown"))

/-! Helper lemmas about `dropWhile`, `filter` and `pyStripL`. -/

theorem dropWhile_self {α : Type} (p : α → Bool) (l : List α) :
    (l.dropWhile p).dropWhile p = l.dropWhile p := by
  induction l with
  | nil => rfl
  | cons a t ih =>
    cases h : p a
    · simp [List.dropWhile_cons, h]
    · simp [List.dropWhile_cons, h, ih]

theorem dropWhile_eq_self_of_isPrefix {α : Type} (p : α → Bool) {l r : List α}
    (hl : l.dropWhile p = l) (hr : r <+: l) : r.dropWhile p = r := by
  cases r with
  | nil => rfl
  | cons a t =>
    obtain ⟨s, hs⟩ := hr
    cases h : p a
    · simp [List.dropWhile_cons, h]
    · exfalso
      rw [← hs] at hl
      simp only [List.cons_append, List.dropWhile_cons, h, if_true] at hl
      have hle : (List.dropWhile p (t ++ s)).length ≤ (t ++ s).length :=
        (List.dropWhile_suffix p).sublist.length_le
      have hlen := congrArg List.length hl
      rw [List.length_cons] at hlen
      omega

theorem pyStripL_isPrefix_dropWhile (l : List Char) :
    pyStripL l <+: l.dropWhile isPyWS := by
  obtain ⟨t, ht⟩ :=
    List.dropWhile_suffix (l := (l.dropWhile isPyWS).reverse) isPyWS
  refine ⟨t.reverse, ?_⟩
  show ((l.dropWhile isPyWS).reverse.dropWhile isPyWS).reverse ++ t.reverse =
    l.dropWhile isPyWS
  rw [← List.reverse_append, ht, List.reverse_reverse]

theorem pyStripL_idem (l : List Char) : pyStripL (pyStripL l) = pyStripL l := by
  have hmfix : (l.dropWhile isPyWS).dropWhile isPyWS = l.dropWhile isPyWS :=
    dropWhile_self _ _
  have h1 : (pyStripL l).dropWhile isPyWS = pyStripL l :=
    dropWhile_eq_self_of_isPrefix _ hmfix (pyStripL_isPrefix_dropWhile l)
  show pyStripL (pyStripL l) = pyStripL l
  unfold pyStripL
  rw [show ((((l.dropWhile isPyWS).reverse.dropWhile isPyWS).reverse).dropWhile isPyWS) =
      ((l.dropWhile isPyWS).reverse.dropWhile isPyWS).reverse from h1]
  rw [List.reverse_reverse, dropWhile_self]

theorem pyStripL_sublist (l : List Char) : (pyStripL l).Sublist l :=
  ((pyStripL_isPrefix_dropWhile l).sublist).trans (List.dropWhile_suffix isPyWS).sublist

theorem pyStripL_length_le (l : List Char) : (pyStripL l).length ≤ l.length :=
  (pyStripL_sublist l).length_le

theorem mem_of_mem_pyStripL {c : Char} {l : List Char} (h : c ∈ pyStripL l) :
    c ∈ l :=
  (pyStripL_sublist l).mem h

theorem dropWhile_eq_self_of_allNot {α : Type} (p : α → Bool) (l : List α)
    (h : ∀ c ∈ l, p c = false) : l.dropWhile p = l := by
  cases l with
  | nil => rfl
  | cons a t => simp [List.dropWhile_cons, h a (List.mem_cons_self a t)]

theorem pyStripL_eq_self_of_allNot {l : List Char}
    (h : ∀ c ∈ l, isPyWS c = false) : pyStripL l = l := by
  unfold pyStripL
  rw [dropWhile_eq_self_of_allNot _ _ h,
    dropWhile_eq_self_of_allNot _ _ (fun c hc => h c (List.mem_reverse.mp hc)),
    List.reverse_reverse]

/-! Claim theorems. -/

/-- Claim C4: `sanitize_query` trims leading and trailing whitespace, rejects
when the trimmed string is empty or longer than 500 characters (the bound
measured on the trimmed, pre-character-stripping string), deletes every
occurrence of the characters in the class of the regex, and rejects when the
remainder is empty; `sanitize("hello<world>") = "helloworld"`, and every
non-empty input consisting solely of those characters is rejected. -/
theorem c4_sanitize_contract :
    sanitize_query "hello<world>" = some "helloworld" ∧
    (∀ q : String, pyStripL q.data = [] ∨ (pyStripL q.data).length > MAX_QUERY_LENGTH →
      sanitize_query q = none) ∧
    (∀ q : String, q ≠ "" → (∀ c ∈ q.data, isDangerChar c = true) →
      sanitize_query q = none) ∧
    (∀ q r : String, sanitize_query q = some r →
      r.data = pyStripL (removeDanger (pyStripL q.data))) ∧
    (∀ q : String, removeDanger (pyStripL q.data) = [] → sanitize_query q = none) := by
  refine ⟨by decide, ?_, ?_, ?_, ?_⟩
  · intro q h
    unfold sanitize_query
    rcases h with h | h
    · simp [h]
    · simp [h]
  · intro q hq hall
    have hnotws : ∀ c ∈ q.data, isPyWS c = false := by
      intro c hc
      have hd := hall c hc
      simp only [isDangerChar, Bool.or_eq_true, decide_eq_true_eq] at hd
      rcases hd with ((((h | h) | h) | h) | h) <;> subst h <;> rfl
    have htr : pyStripL q.data = q.data := pyStripL_eq_self_of_allNot hnotws
    have hqne : q.data ≠ [] := by
      intro hnil
      exact hq (congrArg String.mk hnil)
    have hrd : removeDanger q.data = [] := by
      unfold removeDanger
      rw [List.filter_eq_nil_iff]
      intro a ha
      simp [hall a ha]
    unfold sanitize_query
    rw [htr, hrd]
    split
    · rfl
    · simp [pyStripL]
  · intro q r h
    unfold sanitize_query at h
    split at h
    · exact absurd h (by simp)
    · split at h
      · exact absurd h (by simp)
      · exact (congrArg String.data (Option.some.inj h)).symm
  · intro q h
    unfold sanitize_query
    rw [h]
    split
    · rfl
    · simp [pyStripL]

/-- Witness for C4 at concrete inputs: a whitespace-only input and an input
consisting solely of dangerous characters are both rejected. -/
theorem c4_sanitize_contract_witness :
    sanitize_query "   " = none ∧ sanitize_query "<>;&|" = none :=
  ⟨c4_sanitize_contract.2.1 "   " (Or.inl (by decide)),
   c4_sanitize_contract.2.2.1 "<>;&|" (by decide) (by decide)⟩

/-- Claim C9: `sanitize_query` is idempotent on accepted outputs — whenever
it accepts an input, running it again on the accepted output returns that
output unchanged. -/
theorem c9_sanitize_idempotent :
    ∀ x y : String, sanitize_query x = some y → sanitize_query y = some y := by
  intro x y h
  unfold sanitize_query at h
  split at h
  · exact absurd h (by simp)
  · rename_i hcond
    split at h
    · exact absurd h (by simp)
    · rename_i hsan
      have hy : y.data = pyStripL (removeDanger (pyStripL x.data)) :=
        (congrArg String.data (Option.some.inj h)).symm
      simp only [Bool.or_eq_true, decide_eq_true_eq, not_or] at hcond
      obtain ⟨hne, hlen⟩ := hcond
      have hA : pyStripL y.data = y.data := by rw [hy]; exact pyStripL_idem _
      have hB : y.data.length ≤ (pyStripL x.data).length := by
        rw [hy]
        exact le_trans (pyStripL_length_le _) (List.length_filter_le _ _)
      have hC : removeDanger y.data = y.data := by
        unfold removeDanger
        rw [List.filter_eq_self]
        intro a ha
        rw [hy] at ha
        have ha2 := mem_of_mem_pyStripL ha
        exact (List.mem_filter.mp ha2).2
      have hyne : y.data ≠ [] := by rw [hy]; exact hsan
      have hylen : ¬(y.data.length > MAX_QUERY_LENGTH) := by omega
      have hylen2 : y.length ≤ MAX_QUERY_LENGTH := by
        have hd : y.length = y.data.length := rfl
        omega
      unfold sanitize_query
      rw [hA, hC, hA]
      simp [hyne, hylen, hylen2]

/-- Witness for C9: the accepted output of `sanitize_query "hello<world>"`
is a fixed point. -/
theorem c9_sanitize_idempotent_witness :
    sanitize_query "helloworld" = some "helloworld" :=
  c9_sanitize_idempotent "hello<world>" "helloworld" (by decide)

theorem validate_eq_true_iff (s : String) :
    validate_search_type s = true ↔
      s = "byperson" ∨ s = "bytitle" ∨ s = "byterm" := by
  simp [validate_search_type, or_assoc]

/-- Claim C5: `normalize_search_type` is total (a Lean function), lower-cases
and trims its input, keeps the result exactly when it is one of the three
valid tokens and maps everything else to `"byterm"`; it is idempotent,
`normalize("BYPERSON") = "byperson"` and `normalize("nonsense") = "byterm"`. -/
theorem c5_normalize_total_idempotent :
    (∀ s : String, normalize_search_type (normalize_search_type s) =
      normalize_search_type s) ∧
    normalize_search_type "BYPERSON" = "byperson" ∧
    normalize_search_type "nonsense" = "byterm" ∧
    (∀ s : String, validate_search_type (pyStrip (pyLower s)) = true →
      normalize_search_type s = pyStrip (pyLower s)) ∧
    (∀ s : String, validate_search_type (pyStrip (pyLower s)) = false →
      normalize_search_type s = "byterm") := by
  refine ⟨?_, by decide, by decide, ?_, ?_⟩
  · intro s
    unfold normalize_search_type
    by_cases hv : validate_search_type (pyStrip (pyLower s)) = true
    · rw [if_pos hv]
      rcases (validate_eq_true_iff _).mp hv with h | h | h <;> rw [h] <;> decide
    · rw [if_neg hv]
      decide
  · intro s hv
    unfold normalize_search_type
    rw [if_pos hv]
  · intro s hv
    unfold normalize_search_type
    rw [if_neg (by simp [hv])]

/-- Witness for C5 at concrete inputs: a trimmed case variant of a valid
token is kept, an invalid token falls back to `"byterm"`. -/
theorem c5_normalize_total_idempotent_witness :
    normalize_search_type "  ByTitle " = pyStrip (pyLower "  ByTitle ") ∧
    normalize_search_type "zzz" = "byterm" :=
  ⟨c5_normalize_total_idempotent.2.2.2.1 "  ByTitle " (by decide),
   c5_normalize_total_idempotent.2.2.2.2 "zzz" (by decide)⟩

/-- Claim C2: on the markdown-fenced fixture reply the recovery parser
produces the interpretation with category `byperson` and query
`Test Person` (the spec's `category` field is the code's `search_type`);
and on every reply text whose fence-stripped remainder has a first opening
brace strictly before its last closing brace, the parser parses exactly the
slice between those two positions. -/
theorem c2_markdown_recovery_and_span :
    parse_claude_response ⟨[⟨some successWithMarkdownText⟩], none⟩ =
      some ⟨"byperson", "Test Person", "Test"⟩ ∧
    (∀ (text : List Char) (i j : Nat),
      (fenceStrip text).findIdx? (fun x => x == lbraceChar) = some i →
      lastIdxOf (fenceStrip text) rbraceChar = some j →
      i < j →
      parseClaudeText text =
        (jsonParseL (((fenceStrip text).drop i).take (j + 1 - i))).bind extractInterp) := by
  constructor
  · rfl
  · intro text i j h1 h2 h3
    unfold parseClaudeText recoverSpan
    rw [h1, h2]
    dsimp only
    rw [if_pos h3]
    cases jsonParseL (((fenceStrip text).drop i).take (j + 1 - i)) <;> rfl

/-- Witness for C2's span property at a concrete prose-wrapped reply text. -/
theorem c2_markdown_recovery_and_span_witness :
    parseClaudeText "see \x7b\"query\": \"ok\"\x7d ty".data =
      (jsonParseL (((fenceStrip "see \x7b\"query\": \"ok\"\x7d ty".data).drop 4).take
        (18 + 1 - 4))).bind extractInterp :=
  c2_markdown_recovery_and_span.2 _ 4 18 (by rfl) (by rfl) (by decide)

theorem extractInterp_query_ne_empty {v : JsonVal} {i : QueryInterpretation}
    (h : extractInterp v = some i) : i.query ≠ "" := by
  cases v with
  | obj ms =>
    simp only [extractInterp] at h
    cases h1 : getStrField ms "search_type" "byterm" with
    | none => rw [h1] at h; exact absurd h (by simp)
    | some st =>
      cases h2 : getStrField ms "query" "" with
      | none => rw [h1, h2] at h; exact absurd h (by simp)
      | some q =>
        cases h3 : getStrField ms "explanation" "" with
        | none => rw [h1, h2, h3] at h; exact absurd h (by simp)
        | some ex =>
          rw [h1, h2, h3] at h
          dsimp only at h
          by_cases hq : q = ""
          · rw [if_pos hq] at h; exact absurd h (by simp)
          · rw [if_neg hq] at h
            rw [← Option.some.inj h]
            exact hq
  | null => exact absurd h (by simp [extractInterp])
  | bool b => exact absurd h (by simp [extractInterp])
  | int n => exact absurd h (by simp [extractInterp])
  | str s => exact absurd h (by simp [extractInterp])
  | arr xs => exact absurd h (by simp [extractInterp])

theorem parseClaudeText_query_ne_empty {t : List Char} {i : QueryInterpretation}
    (h : parseClaudeText t = some i) : i.query ≠ "" := by
  unfold parseClaudeText at h
  split at h
  · exact extractInterp_query_ne_empty h
  · exact absurd h (by simp)

theorem parse_claude_response_query_ne_empty {body : ClaudeResponse}
    {i : QueryInterpretation} (h : parse_claude_response body = some i) :
    i.query ≠ "" := by
  unfold parse_claude_response at h
  split at h
  · exact absurd h (by simp)
  · split at h
    · exact absurd h (by simp)
    · exact parseClaudeText_query_ne_empty h

theorem parse_py_ok_truthy {body : ClaudeResponse} {st q ex : JsonVal}
    (h : parse_claude_response_py body = .ok st q ex) : jsonTruthy q = true := by
  unfold parse_claude_response_py at h
  cases hb : body.content with
  | nil => rw [hb] at h; simp at h
  | cons blk rest =>
    rw [hb] at h
    dsimp only at h
    by_cases ht : pyStripL (blk.text.getD "").data = []
    · rw [if_pos ht] at h; simp at h
    · rw [if_neg ht] at h
      cases hj : jsonParseL (recoverSpan (fenceStrip (pyStripL (blk.text.getD "").data))) with
      | none => rw [hj] at h; simp at h
      | some v =>
        rw [hj] at h
        cases v with
        | obj ms =>
          dsimp only at h
          by_cases htru : jsonTruthy ((jsonLookup ms "query").getD (.str "")) = true
          · rw [if_pos htru] at h
            cases h
            exact htru
          · rw [if_neg htru] at h; simp at h
        | null => simp at h
        | bool b => simp at h
        | int n => simp at h
        | str s => simp at h
        | arr xs => simp at h

theorem getStrField_some {ms : List (String × JsonVal)} {k d s : String}
    (h : getStrField ms k d = some s) :
    (jsonLookup ms k).getD (.str d) = .str s := by
  unfold getStrField at h
  cases hl : jsonLookup ms k with
  | none =>
    rw [hl] at h
    simp at h
    rw [Option.getD_none, h]
  | some v =>
    rw [hl] at h
    cases v with
    | str s2 =>
      dsimp only at h
      rw [Option.getD_some, Option.some.inj h]
    | null => simp at h
    | bool b => simp at h
    | int n => simp at h
    | arr xs => simp at h
    | obj ms2 => simp at h

/-- The `String`-typed parse model above and the crash-faithful one agree on
successes: whenever `parse_claude_response` yields an interpretation, the
crash-faithful model yields the same three (string) field values. -/
theorem parse_claude_response_py_agrees {body : ClaudeResponse}
    {i : QueryInterpretation} (h : parse_claude_response body = some i) :
    parse_claude_response_py body =
      .ok (.str i.search_type) (.str i.query) (.str i.explain) := by
  unfold parse_claude_response at h
  unfold parse_claude_response_py
  cases hb : body.content with
  | nil => rw [hb] at h; simp at h
  | cons blk rest =>
    rw [hb] at h
    dsimp only at h ⊢
    by_cases ht : pyStripL (blk.text.getD "").data = []
    · rw [if_pos ht] at h; simp at h
    · rw [if_neg ht] at h ⊢
      unfold parseClaudeText at h
      cases hj : jsonParseL (recoverSpan (fenceStrip (pyStripL (blk.text.getD "").data))) with
      | none => rw [hj] at h; simp at h
      | some v =>
        cases v with
        | obj ms =>
          rw [hj] at h
          dsimp only at h ⊢
          simp only [extractInterp] at h
          cases h1 : getStrField ms "search_type" "byterm" with
          | none => rw [h1] at h; simp at h
          | some st =>
            cases h2 : getStrField ms "query" "" with
            | none => rw [h1, h2] at h; simp at h
            | some q =>
              cases h3 : getStrField ms "explanation" "" with
              | none => rw [h1, h2, h3] at h; simp at h
              | some ex =>
                rw [h1, h2, h3] at h
                dsimp only at h
                by_cases hq : q = ""
                · rw [if_pos hq] at h; simp at h
                · rw [if_neg hq] at h
                  obtain rfl := Option.some.inj h
                  rw [getStrField_some h1, getStrField_some h2, getStrField_some h3]
                  simp [jsonTruthy, hq]
        | null => rw [hj] at h; simp [extractInterp] at h
        | bool b => rw [hj] at h; simp [extractInterp] at h
        | int n => rw [hj] at h; simp [extractInterp] at h
        | str s => rw [hj] at h; simp [extractInterp] at h
        | arr xs => rw [hj] at h; simp [extractInterp] at h

/-- Counterexample to Claim C3 as stated: a structurally valid reply whose
`query` field is the empty string produces exactly the same error value as an
unparseable reply — the missing-query failure is not distinguished from the
malformed-reply failure, both surfacing as
`"Failed to parse Claude response"` (shown in both parse models); and the
claim's "never as a crash" fails: the reply whose content text is `"5"`
parses as valid JSON that is not an object, on which the program raises an
uncaught `AttributeError` instead of returning any tagged error. -/
theorem c3_reasons_collapse_counterexample :
    interpret_query (.ok 200 ⟨[⟨some emptyQueryText⟩], none⟩) =
      interpret_query (.ok 200 ⟨[⟨some malformedJsonText⟩], none⟩) ∧
    interpret_query (.ok 200 ⟨[⟨some emptyQueryText⟩], none⟩) =
      ⟨none, some "Failed to parse Claude response"⟩ ∧
    interpret_query_py (.ok 200 ⟨[⟨some emptyQueryText⟩], none⟩) =
      .result none (some "Failed to parse Claude response") ∧
    interpret_query_py (.ok 200 ⟨[⟨some malformedJsonText⟩], none⟩) =
      .result none (some "Failed to parse Claude response") ∧
    interpret_query_py (.ok 200 ⟨[⟨some "5"⟩], none⟩) = .crash :=
  ⟨rfl, rfl, rfl, rfl, rfl⟩

/-- Claim C3 as amended, over the crash-faithful model: every outcome of
`interpret_query` is (a) a success whose raw `query` field is Python-truthy
and whose error is absent — a failure never yields a default Interpretation;
(b) a failure with no interpretation and an error string drawn from the five
error messages of the code (timeout, transport error, unparseable response
body, unparseable or unusable reply content, non-200 status), where the
content-level failures — no content, malformed reply, missing query — all
collapse into the single reason `"Failed to parse Claude response"`; or
(c) contrary to the claim, an uncaught `AttributeError` crash, which occurs
exactly when a 200 reply's recovered content text parses as valid JSON that
is not an object. -/
theorem c3_failures_are_tagged_values :
    ∀ o : TransportOutcome,
      (∃ st q ex, interpret_query_py o = .result (some (st, q, ex)) none ∧
        jsonTruthy q = true) ∨
      (∃ m, interpret_query_py o = .result none (some m) ∧
        (m = "Request timed out" ∨
         (∃ s, m = "Request failed: " ++ s) ∨
         m = "Failed to parse response JSON" ∨
         m = "Failed to parse Claude response" ∨
         (∃ a b, m = "API error: " ++ a ++ " - " ++ b))) ∨
      (interpret_query_py o = .crash ∧
        ∃ status body, o = .ok status body ∧ status = 200 ∧
          parse_claude_response_py body = .crash) := by
  intro o
  cases o with
  | timeout => exact Or.inr (Or.inl ⟨_, rfl, Or.inl rfl⟩)
  | requestError m => exact Or.inr (Or.inl ⟨_, rfl, Or.inr (Or.inl ⟨m, rfl⟩)⟩)
  | jsonError s => exact Or.inr (Or.inl ⟨_, rfl, Or.inr (Or.inr (Or.inl rfl))⟩)
  | ok status body =>
    simp only [interpret_query_py]
    by_cases hs : status = 200
    · rw [if_pos hs]
      cases hp : parse_claude_response_py body with
      | ok st q ex => exact Or.inl ⟨st, q, ex, rfl, parse_py_ok_truthy hp⟩
      | fail =>
        exact Or.inr (Or.inl ⟨_, rfl, Or.inr (Or.inr (Or.inr (Or.inl rfl)))⟩)
      | crash => exact Or.inr (Or.inr ⟨rfl, status, body, rfl, hs, hp⟩)
    · rw [if_neg hs]
      exact Or.inr (Or.inl ⟨_, rfl, Or.inr (Or.inr (Or.inr (Or.inr
        ⟨toString status, body.errMsg.getD "Unknown", rfl⟩)))⟩)

theorem interpret_query_some_error_none {o : TransportOutcome}
    {i : QueryInterpretation}
    (h : (interpret_query o).interpretation = some i) :
    (interpret_query o).error = none := by
  cases o with
  | timeout => exact absurd h (by simp [interpret_query])
  | requestError m => exact absurd h (by simp [interpret_query])
  | jsonError s => exact absurd h (by simp [interpret_query])
  | ok status body =>
    simp only [interpret_query] at h ⊢
    by_cases hs : status = 200
    · rw [if_pos hs] at h ⊢
      cases hp : parse_claude_response body with
      | some j => rfl
      | none => rw [hp] at h; simp at h
    · rw [if_neg hs] at h; exact absurd h (by simp)

/-- Claim C6: when interpretation succeeds and the subsequent search fails,
the value returned by `run_single_query` is the pair carrying both the
successful `QueryResult` (with its interpretation) and the failed
`SearchResult` (with its error), simultaneously inspectable; a failed
interpretation instead returns Python `None`, in which no interpretation is
present. -/
theorem c6_split_outcome_carries_both :
    ∀ (o : TransportOutcome) (sf : String → String → SearchResult)
      (i : QueryInterpretation) (e : String),
      (interpret_query o).interpretation = some i →
      (sf i.search_type i.query).error = some e →
      (run_single_query o true (Except.ok ()) sf =
          RunOutput.pair (interpret_query o) (some (sf i.search_type i.query)) ∧
        (interpret_query o).interpretation = some i ∧
        (sf i.search_type i.query).error = some e) ∧
      (∀ o2 : TransportOutcome, (interpret_query o2).interpretation = none →
        run_single_query o2 true (Except.ok ()) sf = RunOutput.noResult) := by
  intro o sf i e hi he
  constructor
  · refine ⟨?_, hi, he⟩
    have herr := interpret_query_some_error_none hi
    have hsucc : querySuccess (interpret_query o) = true := by
      simp [querySuccess, hi, herr]
    simp [run_single_query, hsucc, hi]
  · intro o2 h2
    have hfail : querySuccess (interpret_query o2) = false := by
      simp [querySuccess, h2]
    simp [run_single_query, hfail]

set_option maxRecDepth 100000 in
/-- Witness for C6: the `success_byperson` fixture reply followed by a
timed-out search yields the pair of the successful interpretation and the
failed search result. -/
theorem c6_split_outcome_carries_both_witness :
    run_single_query (.ok 200 ⟨[⟨some byPersonFixtureText⟩], none⟩) true
        (Except.ok ()) (fun c q => search "k" "s" 0 c q 20 .timeout) =
      RunOutput.pair (interpret_query (.ok 200 ⟨[⟨some byPersonFixtureText⟩], none⟩))
        (some (search "k" "s" 0 "byperson" "David Deutsch" 20 .timeout)) :=
  ((c6_split_outcome_carries_both _ _
      ⟨"byperson", "David Deutsch",
        "Searching for podcast episodes featuring David Deutsch as a guest"⟩
      "Request timed out" (by rfl) (by rfl)).1).1

theorem search_request_eq (k s : String) (now : Nat) (st q : String)
    (m : Nat) (t : SearchTransport) :
    (search k s now st q m t).request = searchRequest k s now st q m := by
  cases t with
  | ok status body => by_cases h : status = 200 <;> simp [search, h]
  | timeout => rfl
  | requestError msg => rfl
  | jsonError s2 => rfl

/-- Claim C7: on a 200 search reply the reported total equals the payload's
`count` field when present and otherwise the number of feed items; the total
never depends on `max_results`; a 200 reply with 3 feed items and no `count`
field yields a total of 3. -/
theorem c7_total_count_from_payload :
    (∀ (k s : String) (now : Nat) (st q : String) (m : Nat) (body : SearchBody),
      (search k s now st q m (.ok 200 body)).total_count =
        body.count.getD body.feeds.length) ∧
    (∀ (k s : String) (now : Nat) (st q : String) (m1 m2 : Nat)
        (t : SearchTransport),
      (search k s now st q m1 t).total_count =
        (search k s now st q m2 t).total_count) ∧
    (search "key" "secret" 0 "byterm" "q" DEFAULT_MAX_RESULTS
        (.ok 200 ⟨[{}, {}, {}], none, none⟩)).total_count = 3 := by
  refine ⟨fun k s now st q m body => rfl, ?_, rfl⟩
  intro k s now st q m1 m2 t
  cases t with
  | ok status body => by_cases h : status = 200 <;> simp [search, h]
  | timeout => rfl
  | requestError msg => rfl
  | jsonError s2 => rfl

set_option maxRecDepth 100000 in
/-- Claim C8: on every search call the `Authorization` header is the
hex-encoded SHA-1 of the concatenation of the API key, the API secret and the
current Unix timestamp in seconds; that same timestamp is sent as
`X-Auth-Date` and the plain key as `X-Auth-Key`; the hash is a function of
the call-time `now`, recomputed per call.  The final conjunct pins the SHA-1
implementation to a reference digest. -/
theorem c8_auth_signature_headers :
    (∀ (k s : String) (now : Nat) (st q : String) (m : Nat)
        (t : SearchTransport),
      (search k s now st q m t).request.headers.authorization =
        sha1Hex (utf8Bytes (k ++ s ++ toString now)) ∧
      (search k s now st q m t).request.headers.xAuthDate = toString now ∧
      (search k s now st q m t).request.headers.xAuthKey = k) ∧
    generate_auth_hash "key" "secret" "1700000000" =
      "abaf71c02050c31e4d4e6b08c1625173af0445ba" := by
  constructor
  · intro k s now st q m t
    rw [search_request_eq]
    exact ⟨rfl, rfl, rfl⟩
  · rfl

/-- Claim C10: a category outside the three valid tokens is routed to the
`search/byterm` endpoint, but the `clean` parameter is added exactly when the
category is the literal string `"byterm"` — an unnormalized category degrades
to a byterm search without the clean flag. -/
theorem c10_unnormalized_category_degrades :
    ∀ (k s : String) (now : Nat) (st q : String) (m : Nat)
      (t : SearchTransport),
      (st ≠ "byperson" → st ≠ "bytitle" → st ≠ "byterm" →
        (search k s now st q m t).request.url = BASE_URL ++ "/" ++ "search/byterm" ∧
        ("clean", "true") ∉ (search k s now st q m t).request.params) ∧
      (("clean", "true") ∈ (search k s now st q m t).request.params ↔
        st = "byterm") := by
  intro k s now st q m t
  rw [search_request_eq]
  constructor
  · intro h1 h2 h3
    constructor
    · simp [searchRequest, endpointFor, h1, h2, h3]
    · simp [searchRequest, h3]
  · by_cases h : st = "byterm" <;> simp [searchRequest, h]

/-- Witness for C10: the unnormalized category `"BYTERM"` hits the byterm
endpoint without the clean parameter. -/
theorem c10_unnormalized_category_degrades_witness :
    (search "k" "s" 0 "BYTERM" "q" 20 .timeout).request.url =
      BASE_URL ++ "/" ++ "search/byterm" ∧
    ("clean", "true") ∉ (search "k" "s" 0 "BYTERM" "q" 20 .timeout).request.params :=
  (c10_unnormalized_category_degrades "k" "s" 0 "BYTERM" "q" 20 .timeout).1
    (by decide) (by decide) (by decide)

/-- Claim C1 (orchestrator modelled from the spec): every pipeline run
sanitizes first; when sanitization rejects, the run fails with reason
"invalid input" and makes neither the interpreter call nor the search call;
the interpreter is only ever invoked on a query the sanitizer accepted. -/
theorem c1_sanitizer_precedes_interpreter :
    ∀ (interp : String → Except String QueryInterpretation) (ws : Bool)
      (se : String → String → SearchResult) (raw : String),
      (sanitize_query raw = none →
        (pipelineRun interp ws se raw).1.error = some "invalid input" ∧
        (pipelineRun interp ws se raw).1.interpretation = none ∧
        (pipelineRun interp ws se raw).2 = []) ∧
      (∀ q, PipelineCall.interpretCall q ∈ (pipelineRun interp ws se raw).2 →
        sanitize_query raw = some q) := by
  intro interp ws se raw
  constructor
  · intro h
    simp [pipelineRun, h]
  · intro q hq
    unfold pipelineRun at hq
    cases hs : sanitize_query raw with
    | none => rw [hs] at hq; simp at hq
    | some q0 =>
      rw [hs] at hq
      dsimp only at hq
      cases hi : interp q0 with
      | error e =>
        rw [hi] at hq
        simp at hq
        exact congrArg some hq.symm
      | ok i =>
        rw [hi] at hq
        dsimp only at hq
        by_cases hw : ws = true
        · rw [hw] at hq
          simp at hq
          exact congrArg some hq.symm
        · simp only [Bool.not_eq_true] at hw
          rw [hw] at hq
          simp at hq
          exact congrArg some hq.symm

/-- Witness for C1: on the rejected raw input consisting of dangerous
characters only, the run fails with "invalid input" and no stage call is
recorded. -/
theorem c1_sanitizer_precedes_interpreter_witness :
    (pipelineRun (fun q => Except.ok ⟨"byterm", q, ""⟩) true
        (fun c q => search "k" "s" 0 c q 20 .timeout) "<>|").1.error =
      some "invalid input" ∧
    (pipelineRun (fun q => Except.ok ⟨"byterm", q, ""⟩) true
        (fun c q => search "k" "s" 0 c q 20 .timeout) "<>|").1.interpretation = none ∧
    (pipelineRun (fun q => Except.ok ⟨"byterm", q, ""⟩) true
        (fun c q => search "k" "s" 0 c q 20 .timeout) "<>|").2 = [] :=
  (c1_sanitizer_precedes_interpreter _ true _ "<>|").1 (by decide)

/-! Regression checks mirroring the unit tests of test_ai_query.py, each
established by kernel evaluation of the embedded definitions. -/

set_option maxRecDepth 100000 in
/-- The SHA-1 embedding agrees with the FIPS 180-1 reference digest of
`"abc"`. -/
theorem sha1Hex_abc :
    sha1Hex (utf8Bytes "abc") = "a9993e364706816aba3e25717850c26c9cd0d89d" := rfl

/-- `json.loads` embedding on a compound document. -/
theorem jsonParse_compound :
    jsonParse "\x7b\"a\": 1, \"b\": [true, null, \"x\"]\x7d" =
      some (.obj [("a", .int 1), ("b", .arr [.bool true, .null, .str "x"])]) := rfl

/-- `json.loads` embedding rejects truncated input, trailing garbage and
leading zeros, and decodes string escapes. -/
theorem jsonParse_rejects_and_escapes :
    jsonParse "\x7b\"q\": incomplete" = none ∧
    jsonParse "\x7b\x7d extra" = none ∧
    jsonParse "01" = none ∧
    jsonParse "-12" = some (.int (-12)) ∧
    jsonParse "  \"he\\nllo\"  " = some (.str "he\nllo") := ⟨rfl, rfl, rfl, rfl, rfl⟩

/-- `test_parse_empty_content`: an empty `content` array fails. -/
theorem parse_empty_content_fails :
    parse_claude_response ⟨[], some "Invalid API key"⟩ = none := rfl

/-- `test_parse_json_with_extra_text`: a JSON object embedded in prose is
still recovered. -/
theorem parse_prose_wrapped_succeeds :
    parse_claude_response ⟨[⟨some "Here is the result: \x7b\"search_type\": \"byterm\", \"query\": \"test\", \"explanation\": \"test\"\x7d Hope this helps!"⟩], none⟩ =
      some ⟨"byterm", "test", "test"⟩ := rfl

end Podcast
